import Mathlib

/-!
Shallow embedding of the tournament-join and withdrawal core of the
Esports Tournament app (user panel module).

The embedded functions are `joinTournament` and `requestWithdrawal`.
Both operate on an explicit application state holding the records the
two functions read and write for one (tournament, user) pair:
the stored tournament record at tournaments/tId, the wallet balance at
users/uid/wallet/balance, the membership record at
tournamentJoins/tId/uid, the wallet history list at walletHistory/uid,
and the list of withdrawal records.

JS numbers are modelled as rationals; an absent (null / undefined)
database value is modelled as `none`.  The Firebase Realtime Database
transaction primitive is modelled by functions that return
`Option newValue`: returning `none` models the update callback
returning undefined, which ABORTS the transaction (committed = false);
returning `some v` models the callback returning the value v, which
COMMITS the write of v (committed = true).  In particular, a callback
that returns the null current value commits a trivial write of null:
only undefined aborts.  The sequential model has no store-level errors
and no concurrent retries, so the error argument of every completion
callback is null and the err-or-not-committed branches reduce to the
not-committed case.  The pre-flight user snapshot read by
`once("value")` is passed as a separate argument, since by the time the
transactions run the stored state may differ from that snapshot.
-/

/-- JS `x || 0` on a possibly absent number: null, undefined and 0 all
give 0, any other number gives itself. -/
def jsNum (x : Option ℚ) : ℚ := x.getD 0

/-- JS `a >= b` where either side may be undefined: a comparison with
undefined is false (NaN semantics). -/
def jsGe (a b : Option ℚ) : Bool :=
  match a, b with
  | some x, some y => decide (x ≥ y)
  | _, _ => false

/-- The user record at users/uid, as read by the pre-flight snapshot in
`joinTournament`.  `walletBalance` models `wallet?.balance` (absent
wallet gives `none`); `ign` models `gameProfiles?.ign`. -/
structure UserRec where
  name : String
  phone : String
  ign : Option String
  isBlocked : Bool
  walletBalance : Option ℚ
deriving DecidableEq

/-- The stored tournament record at tournaments/tId, restricted to the
two fields the join code reads and writes.  Either field may be absent. -/
structure TournamentRec where
  joinedCount : Option ℚ
  maxSlots : Option ℚ
deriving DecidableEq

/-- The membership record written to tournamentJoins/tId/uid. -/
structure MembershipRec where
  uid : String
  userName : String
  gameUidOrIgn : String
  phone : String
  joinedAt : ℕ
  status : String
deriving DecidableEq

/-- A wallet history entry at walletHistory/uid, as rendered by
`loadWalletHistory` (type tag, amount, timestamp, note). -/
structure HistoryEntry where
  txType : String
  amount : ℚ
  createdAt : ℕ
  note : String
deriving DecidableEq

/-- A withdrawal record pushed under /withdrawals by `requestWithdrawal`. -/
structure WithdrawalRec where
  uid : String
  name : String
  method : String
  accountInfo : String
  amount : ℚ
  fee : ℚ
  status : String
  adminNote : String
  transactionId : String
  createdAt : ℕ
  updatedAt : ℕ
deriving DecidableEq

/-- The global app settings read by `requestWithdrawal`
(`snap.val() || {}` followed by `|| 0` on each field; an absent
settings node is both fields `none`). -/
structure SettingsRec where
  minWithdraw : Option ℚ
  withdrawFeePercent : Option ℚ
deriving DecidableEq

/-- The mutable store state touched by the embedded operations, for one
(tournament, user) pair. -/
structure AppState where
  tournament : Option TournamentRec
  balance : Option ℚ
  membership : Option MembershipRec
  history : List HistoryEntry
  withdrawals : List WithdrawalRec
deriving DecidableEq

/-- The typed outcome of one `joinTournament` attempt, one constructor
per toast/exit of the source function. -/
inductive JoinResult
  | profileMissing
  | userBlocked
  | insufficientPreflight
  | slotsFull
  | debitFailed
  | joined
deriving DecidableEq

/-- The typed outcome of one `requestWithdrawal` attempt. -/
inductive WithdrawResult
  | invalidAmount
  | belowMinimum
  | insufficientBalance
  | requested
deriving DecidableEq

/-- The update callback of the first transaction in `joinTournament`,
on tournaments/tId:

  if curr exists and joinedCount >= maxSlots, return undefined (ABORT);
  if curr exists otherwise, increment joinedCount and commit;
  if curr is null, the callback returns curr, i.e. null, and returning
  null (unlike undefined) COMMITS a trivial write of null.

The outer Option is the transaction outcome (none = aborted), the
inner Option is the committed value of tournaments/tId. -/
def slotTxn : Option TournamentRec → Option (Option TournamentRec)
  | none => some none
  | some c =>
    if jsGe c.joinedCount c.maxSlots then none
    else some (some { c with joinedCount := some (jsNum c.joinedCount + 1) })

/-- The update callback of the compensating transaction on the
joinedCount child: JS `(c || 1) - 1`, so null and 0 both map to 0 and
any other number c maps to c - 1. -/
def releaseVal (c : Option ℚ) : ℚ :=
  (match c with
   | none => 1
   | some x => if x = 0 then 1 else x) - 1

/-- The compensating transaction on tournaments/tId/joinedCount.  It
always commits (the callback always returns a number).  Writing the
child of an absent record creates the record with only that child. -/
def releaseTxn : Option TournamentRec → Option TournamentRec
  | none => some { joinedCount := some (releaseVal none), maxSlots := none }
  | some c => some { c with joinedCount := some (releaseVal c.joinedCount) }

/-- The update callback of the wallet debit transaction on
users/uid/wallet/balance, shared verbatim by `joinTournament` and
`requestWithdrawal`:

  if ((bal || 0) >= amount) return (bal || 0) - amount; return; // abort

`none` result = aborted (insufficient), `some b` = committed balance b. -/
def walletDebitTxn (bal : Option ℚ) (amount : ℚ) : Option ℚ :=
  if jsNum bal ≥ amount then some (jsNum bal - amount) else none

/-- The membership record written on success, with the field values the
source sets (snapshot name/phone/ign, joinedAt := Date.now(), status
"joined"). -/
def mkMembership (uid : String) (u : UserRec) (now : ℕ) : MembershipRec :=
  { uid := uid
    userName := u.name
    gameUidOrIgn := u.ign.getD ""
    phone := u.phone
    joinedAt := now
    status := "joined" }

/-- `joinTournament(tId, t)` from the user panel module.  `userData` is
the pre-flight snapshot of users/uid (null if absent), `entryFee` is
`t.entryFee` from the cached card data, `now` stands for `Date.now()`,
and `s` is the store state the transactions run against.  Control flow
of the source: pre-flight checks on the snapshot, then the slot
transaction, then the wallet debit transaction, then on debit failure
the compensating joinedCount decrement, on success the membership
write. -/
def joinTournament (uid : String) (userData : Option UserRec) (entryFee : ℚ)
    (now : ℕ) (s : AppState) : JoinResult × AppState :=
  match userData with
  | none => (JoinResult.profileMissing, s)
  | some u =>
    if u.isBlocked then (JoinResult.userBlocked, s)
    else if jsNum u.walletBalance < entryFee then (JoinResult.insufficientPreflight, s)
    else
      match slotTxn s.tournament with
      | none => (JoinResult.slotsFull, s)
      | some newT =>
        match walletDebitTxn s.balance entryFee with
        | none =>
          (JoinResult.debitFailed, { s with tournament := releaseTxn newT })
        | some newBal =>
          (JoinResult.joined,
            { s with
                tournament := newT
                balance := some newBal
                membership := some (mkMembership uid u now) })

/-- The withdrawal fee: JS `Math.ceil(amount * feePercent / 100)`,
modelled as the exact ceiling of the rational quotient. -/
def withdrawFee (amount feePercent : ℚ) : ℚ :=
  ((⌈amount * feePercent / 100⌉ : ℤ) : ℚ)

/-- The withdrawal record pushed under /withdrawals on success, with
the field values the source sets. -/
def mkWithdrawal (uid method account : String) (amount fee : ℚ) (now : ℕ) :
    WithdrawalRec :=
  { uid := uid
    name := ""
    method := method
    accountInfo := account
    amount := amount
    fee := fee
    status := "pending"
    adminNote := ""
    transactionId := ""
    createdAt := now
    updatedAt := now }

/-- `requestWithdrawal()` from the user panel module.  `amount` is the
result of `parseFloat` on the form field, with `none` modelling NaN;
the guard `!amount || amount <= 0` rejects NaN, 0 and negatives.
`method` and `account` are the form values after their `||` defaults.
Control flow of the source: amount guard, settings read, minimum
check, fee computation, the wallet debit transaction, and on success
the withdrawal record push. -/
def requestWithdrawal (uid : String) (amount : Option ℚ) (method account : String)
    (settings : SettingsRec) (now : ℕ) (s : AppState) : WithdrawResult × AppState :=
  match amount with
  | none => (WithdrawResult.invalidAmount, s)
  | some a =>
    if a ≤ 0 then (WithdrawResult.invalidAmount, s)
    else
      if a < jsNum settings.minWithdraw then (WithdrawResult.belowMinimum, s)
      else
        match walletDebitTxn s.balance a with
        | none => (WithdrawResult.insufficientBalance, s)
        | some newBal =>
          (WithdrawResult.requested,
            { s with
                balance := some newBal
                withdrawals := s.withdrawals ++
                  [mkWithdrawal uid method account a
                    (withdrawFee a (jsNum settings.withdrawFeePercent)) now] })

/-! Sample concrete data used by witnesses and counterexamples. -/

/-- A sample unblocked user with snapshot balance 500. -/
def sampleUser : UserRec :=
  { name := "A", phone := "1", ign := some "ignA", isBlocked := false,
    walletBalance := some 500 }

/-- A sample tournament record: 3 of 10 slots taken. -/
def sampleT : TournamentRec := { joinedCount := some 3, maxSlots := some 10 }

/-- A sample state: the sample tournament, balance 500, no membership,
empty history, no withdrawals. -/
def sampleState : AppState :=
  { tournament := some sampleT, balance := some 500, membership := none,
    history := [], withdrawals := [] }

/-- A state whose tournament id has no stored record. -/
def noTournamentState : AppState :=
  { tournament := none, balance := some 500, membership := none,
    history := [], withdrawals := [] }

/-- A state in which the user already holds a membership record. -/
def joinedState : AppState :=
  { tournament := some sampleT, balance := some 500,
    membership := some (mkMembership "u1" sampleUser 1),
    history := [], withdrawals := [] }

/-- A state with a large balance, for the withdrawal scenario. -/
def wealthyState : AppState :=
  { tournament := some sampleT, balance := some 2000, membership := none,
    history := [], withdrawals := [] }

/-- A state whose stored balance (50) is below the sample entry fee,
although the pre-flight snapshot balance is not: the debit aborts and
the compensating decrement runs. -/
def poorState : AppState :=
  { tournament := some sampleT, balance := some 50, membership := none,
    history := [], withdrawals := [] }

/-! Branch characterizations of `joinTournament`: one lemma per exit of
the source function, each conditioned on the tests taken on that path. -/

/-- Exit path: missing user snapshot (toast "Profile not set up."). -/
theorem joinTournament_profileMissing (uid : String) (entryFee : ℚ) (now : ℕ)
    (s : AppState) :
    joinTournament uid none entryFee now s = (JoinResult.profileMissing, s) := rfl

/-- Exit path: blocked user (toast "You are blocked."). -/
theorem joinTournament_blocked (uid : String) (u : UserRec) (entryFee : ℚ) (now : ℕ)
    (s : AppState) (h : u.isBlocked = true) :
    joinTournament uid (some u) entryFee now s = (JoinResult.userBlocked, s) := by
  simp [joinTournament, h]

/-- Exit path: advisory pre-flight balance check fails. -/
theorem joinTournament_preflight (uid : String) (u : UserRec) (entryFee : ℚ) (now : ℕ)
    (s : AppState) (h1 : u.isBlocked = false) (h2 : jsNum u.walletBalance < entryFee) :
    joinTournament uid (some u) entryFee now s = (JoinResult.insufficientPreflight, s) := by
  simp [joinTournament, h1, h2]

/-- Exit path: the slot transaction aborts (toast "Slots are full."). -/
theorem joinTournament_full (uid : String) (u : UserRec) (entryFee : ℚ) (now : ℕ)
    (s : AppState) (h1 : u.isBlocked = false) (h2 : ¬ jsNum u.walletBalance < entryFee)
    (h3 : slotTxn s.tournament = none) :
    joinTournament uid (some u) entryFee now s = (JoinResult.slotsFull, s) := by
  simp [joinTournament, h1, h2, h3]

/-- Exit path: the slot transaction commits and the debit aborts, so the
compensating joinedCount decrement runs (toast "Unable to deduct fee."). -/
theorem joinTournament_debitFailed (uid : String) (u : UserRec) (entryFee : ℚ) (now : ℕ)
    (s : AppState) (nt : Option TournamentRec)
    (h1 : u.isBlocked = false) (h2 : ¬ jsNum u.walletBalance < entryFee)
    (h3 : slotTxn s.tournament = some nt)
    (h4 : walletDebitTxn s.balance entryFee = none) :
    joinTournament uid (some u) entryFee now s
      = (JoinResult.debitFailed, { s with tournament := releaseTxn nt }) := by
  simp [joinTournament, h1, h2, h3, h4]

/-- Exit path: both transactions commit and the membership record is
written (toast "Joined successfully!"). -/
theorem joinTournament_joined (uid : String) (u : UserRec) (entryFee : ℚ) (now : ℕ)
    (s : AppState) (nt : Option TournamentRec) (nb : ℚ)
    (h1 : u.isBlocked = false) (h2 : ¬ jsNum u.walletBalance < entryFee)
    (h3 : slotTxn s.tournament = some nt)
    (h4 : walletDebitTxn s.balance entryFee = some nb) :
    joinTournament uid (some u) entryFee now s
      = (JoinResult.joined,
         { s with tournament := nt, balance := some nb,
                  membership := some (mkMembership uid u now) }) := by
  simp [joinTournament, h1, h2, h3, h4]

/-- A committed wallet debit never writes a negative balance: the
commit condition is exactly that the old balance covers the amount. -/
theorem walletDebitTxn_nonneg (bal : Option ℚ) (amount x : ℚ)
    (h : walletDebitTxn bal amount = some x) : 0 ≤ x := by
  unfold walletDebitTxn at h
  split at h
  · cases h
    linarith [sub_nonneg.mpr (by assumption : amount ≤ jsNum bal)]
  · cases h

/-- C1: For every join attempt by joinTournament, the membership record
for the (tournament, user) pair is written exactly when both the slot
reservation transaction and the wallet debit transaction commit
(for an attempt passing the pre-flight checks, success is equivalent to
both transactions committing and then the membership record is written
with the snapshot data); on every failure exit the membership record is
left exactly as it was, so no membership record is created. -/
theorem C1_membership_iff_both_commit (uid : String) (userData : Option UserRec)
    (u : UserRec) (entryFee : ℚ) (now : ℕ) (s : AppState)
    (hB : u.isBlocked = false) (hF : entryFee ≤ jsNum u.walletBalance) :
    ((joinTournament uid userData entryFee now s).1 = JoinResult.joined ∨
      (joinTournament uid userData entryFee now s).2.membership = s.membership) ∧
    ((joinTournament uid (some u) entryFee now s).1 = JoinResult.joined ↔
      (slotTxn s.tournament).isSome ∧ (walletDebitTxn s.balance entryFee).isSome) ∧
    ((joinTournament uid (some u) entryFee now s).2.membership =
      if (joinTournament uid (some u) entryFee now s).1 = JoinResult.joined
      then some (mkMembership uid u now) else s.membership) := by
  have hnp : ¬ jsNum u.walletBalance < entryFee := not_lt.mpr hF
  refine ⟨?_, ?_, ?_⟩
  · rcases userData with _ | v
    · right; rfl
    · by_cases hb : v.isBlocked = true
      · rw [joinTournament_blocked uid v entryFee now s hb]; right; rfl
      · replace hb : v.isBlocked = false := by simpa using hb
        by_cases hp : jsNum v.walletBalance < entryFee
        · rw [joinTournament_preflight uid v entryFee now s hb hp]; right; rfl
        · rcases h3 : slotTxn s.tournament with _ | nt
          · rw [joinTournament_full uid v entryFee now s hb hp h3]; right; rfl
          · rcases h4 : walletDebitTxn s.balance entryFee with _ | nb
            · rw [joinTournament_debitFailed uid v entryFee now s nt hb hp h3 h4]
              right; rfl
            · left
              rw [joinTournament_joined uid v entryFee now s nt nb hb hp h3 h4]
  · rcases h3 : slotTxn s.tournament with _ | nt
    · rw [joinTournament_full uid u entryFee now s hB hnp h3]
      simp
    · rcases h4 : walletDebitTxn s.balance entryFee with _ | nb
      · rw [joinTournament_debitFailed uid u entryFee now s nt hB hnp h3 h4]
        simp
      · rw [joinTournament_joined uid u entryFee now s nt nb hB hnp h3 h4]
        simp
  · rcases h3 : slotTxn s.tournament with _ | nt
    · rw [joinTournament_full uid u entryFee now s hB hnp h3]
      simp
    · rcases h4 : walletDebitTxn s.balance entryFee with _ | nb
      · rw [joinTournament_debitFailed uid u entryFee now s nt hB hnp h3 h4]
        simp
      · rw [joinTournament_joined uid u entryFee now s nt nb hB hnp h3 h4]
        simp

/-- C1 witness: a concrete pre-flight-passing attempt on the sample
state; both transactions commit, the attempt succeeds and the
membership record is written. -/
theorem C1_membership_iff_both_commit_witness :
    (sampleUser.isBlocked = false ∧ (100:ℚ) ≤ jsNum sampleUser.walletBalance) ∧
    (((joinTournament "u1" (some sampleUser) 100 5 sampleState).1 = JoinResult.joined ∨
       (joinTournament "u1" (some sampleUser) 100 5 sampleState).2.membership
         = sampleState.membership) ∧
     ((joinTournament "u1" (some sampleUser) 100 5 sampleState).1 = JoinResult.joined ↔
       (slotTxn sampleState.tournament).isSome ∧
       (walletDebitTxn sampleState.balance 100).isSome) ∧
     ((joinTournament "u1" (some sampleUser) 100 5 sampleState).2.membership =
       if (joinTournament "u1" (some sampleUser) 100 5 sampleState).1 = JoinResult.joined
       then some (mkMembership "u1" sampleUser 5) else sampleState.membership)) :=
  ⟨⟨rfl, by norm_num [sampleUser, jsNum]⟩,
   C1_membership_iff_both_commit "u1" (some sampleUser) sampleUser 100 5 sampleState
     rfl (by norm_num [sampleUser, jsNum])⟩

/-- C2: for a stored tournament with integer counters, positive
maxSlots and 0 <= joinedCount <= maxSlots, the slot transaction
increments joinedCount by exactly 1 when joinedCount < maxSlots and
otherwise aborts without writing, and the count after the operation
never exceeds maxSlots. -/
theorem C2_slot_txn_spec (j m : ℤ) (hm : 0 < m) (hj0 : 0 ≤ j) (hjm : j ≤ m) :
    slotTxn (some { joinedCount := some (j:ℚ), maxSlots := some (m:ℚ) })
      = (if j < m
         then some (some { joinedCount := some ((j:ℚ) + 1), maxSlots := some (m:ℚ) })
         else none) ∧
    (if j < m then (j:ℚ) + 1 else (j:ℚ)) ≤ (m:ℚ) := by
  by_cases h : j < m
  · have hq : (j:ℚ) < (m:ℚ) := by exact_mod_cast h
    constructor
    · simp [slotTxn, jsGe, jsNum, h, not_le.mpr hq]
    · have : j + 1 ≤ m := h
      simp only [if_pos h]
      exact_mod_cast this
  · have hq : (m:ℚ) ≤ (j:ℚ) := by exact_mod_cast not_lt.mp h
    constructor
    · simp [slotTxn, jsGe, jsNum, h, hq]
    · simp only [if_neg h]
      exact_mod_cast hjm

/-- C2 witness: counters 3 of 10; the transaction commits the increment
to 4, which is within maxSlots. -/
theorem C2_slot_txn_spec_witness :
    ((0:ℤ) < 10 ∧ (0:ℤ) ≤ 3 ∧ (3:ℤ) ≤ 10) ∧
    (slotTxn (some { joinedCount := some ((3:ℤ):ℚ), maxSlots := some ((10:ℤ):ℚ) })
       = (if (3:ℤ) < 10
          then some (some { joinedCount := some (((3:ℤ):ℚ) + 1),
                            maxSlots := some ((10:ℤ):ℚ) })
          else none) ∧
     (if (3:ℤ) < 10 then ((3:ℤ):ℚ) + 1 else ((3:ℤ):ℚ)) ≤ ((10:ℤ):ℚ)) :=
  ⟨⟨by norm_num, by norm_num, by norm_num⟩,
   C2_slot_txn_spec 3 10 (by norm_num) (by norm_num) (by norm_num)⟩

/-! Branch characterizations of `requestWithdrawal`. -/

/-- Exit path: amount did not parse (NaN). -/
theorem requestWithdrawal_nan (uid method account : String) (settings : SettingsRec)
    (now : ℕ) (s : AppState) :
    requestWithdrawal uid none method account settings now s
      = (WithdrawResult.invalidAmount, s) := rfl

/-- Exit path: non-positive parsed amount. -/
theorem requestWithdrawal_nonpos (uid method account : String) (a : ℚ)
    (settings : SettingsRec) (now : ℕ) (s : AppState) (h : a ≤ 0) :
    requestWithdrawal uid (some a) method account settings now s
      = (WithdrawResult.invalidAmount, s) := by
  simp [requestWithdrawal, h]

/-- Exit path: amount below the minimum withdrawal setting. -/
theorem requestWithdrawal_below (uid method account : String) (a : ℚ)
    (settings : SettingsRec) (now : ℕ) (s : AppState)
    (h1 : ¬ a ≤ 0) (h2 : a < jsNum settings.minWithdraw) :
    requestWithdrawal uid (some a) method account settings now s
      = (WithdrawResult.belowMinimum, s) := by
  simp [requestWithdrawal, h1, h2]

/-- Exit path: the debit transaction aborts (toast "Insufficient balance."). -/
theorem requestWithdrawal_insufficient (uid method account : String) (a : ℚ)
    (settings : SettingsRec) (now : ℕ) (s : AppState)
    (h1 : ¬ a ≤ 0) (h2 : ¬ a < jsNum settings.minWithdraw)
    (h3 : walletDebitTxn s.balance a = none) :
    requestWithdrawal uid (some a) method account settings now s
      = (WithdrawResult.insufficientBalance, s) := by
  simp [requestWithdrawal, h1, h2, h3]

/-- Exit path: the debit commits and the withdrawal record is pushed. -/
theorem requestWithdrawal_requested (uid method account : String) (a nb : ℚ)
    (settings : SettingsRec) (now : ℕ) (s : AppState)
    (h1 : ¬ a ≤ 0) (h2 : ¬ a < jsNum settings.minWithdraw)
    (h3 : walletDebitTxn s.balance a = some nb) :
    requestWithdrawal uid (some a) method account settings now s
      = (WithdrawResult.requested,
         { s with balance := some nb,
                  withdrawals := s.withdrawals ++
                    [mkWithdrawal uid method account a
                      (withdrawFee a (jsNum settings.withdrawFeePercent)) now] }) := by
  simp [requestWithdrawal, h1, h2, h3]

/-- The balance after a join attempt is either the old balance or a
value committed by the wallet debit transaction. -/
theorem joinTournament_balance_cases (uid : String) (userData : Option UserRec)
    (entryFee : ℚ) (now : ℕ) (s : AppState) :
    (joinTournament uid userData entryFee now s).2.balance = s.balance ∨
    ∃ nb, walletDebitTxn s.balance entryFee = some nb ∧
      (joinTournament uid userData entryFee now s).2.balance = some nb := by
  rcases userData with _ | v
  · left; rfl
  · by_cases hb : v.isBlocked = true
    · rw [joinTournament_blocked uid v entryFee now s hb]; left; rfl
    · replace hb : v.isBlocked = false := by simpa using hb
      by_cases hp : jsNum v.walletBalance < entryFee
      · rw [joinTournament_preflight uid v entryFee now s hb hp]; left; rfl
      · rcases h3 : slotTxn s.tournament with _ | nt
        · rw [joinTournament_full uid v entryFee now s hb hp h3]; left; rfl
        · rcases h4 : walletDebitTxn s.balance entryFee with _ | nb
          · rw [joinTournament_debitFailed uid v entryFee now s nt hb hp h3 h4]
            left; rfl
          · rw [joinTournament_joined uid v entryFee now s nt nb hb hp h3 h4]
            exact Or.inr ⟨nb, rfl, rfl⟩

/-- The balance after a withdrawal attempt is either the old balance or
a value committed by the wallet debit transaction. -/
theorem requestWithdrawal_balance_cases (uid : String) (amount : Option ℚ)
    (method account : String) (settings : SettingsRec) (now : ℕ) (s : AppState) :
    (requestWithdrawal uid amount method account settings now s).2.balance = s.balance ∨
    ∃ a nb, amount = some a ∧ walletDebitTxn s.balance a = some nb ∧
      (requestWithdrawal uid amount method account settings now s).2.balance = some nb := by
  rcases amount with _ | a
  · left; rfl
  · by_cases h1 : a ≤ 0
    · rw [requestWithdrawal_nonpos uid method account a settings now s h1]; left; rfl
    · by_cases h2 : a < jsNum settings.minWithdraw
      · rw [requestWithdrawal_below uid method account a settings now s h1 h2]; left; rfl
      · rcases h3 : walletDebitTxn s.balance a with _ | nb
        · rw [requestWithdrawal_insufficient uid method account a settings now s h1 h2 h3]
          left; rfl
        · rw [requestWithdrawal_requested uid method account a nb settings now s h1 h2 h3]
          exact Or.inr ⟨a, nb, rfl, h3, rfl⟩

/-- C3: the shared wallet debit transaction writes balance - amount
when the balance covers the amount and otherwise aborts leaving the
balance unchanged, so the balance after the debit is never negative;
consequently neither joinTournament nor requestWithdrawal can ever
leave a negative wallet balance when the starting balance is
non-negative. -/
theorem C3_debit_spec (b a : ℚ) (uid : String) (userData : Option UserRec)
    (entryFee : ℚ) (now : ℕ) (amount : Option ℚ) (method account : String)
    (settings : SettingsRec) (s : AppState)
    (hb : 0 ≤ b) (ha : 0 ≤ a) (hs : 0 ≤ jsNum s.balance) :
    walletDebitTxn (some b) a = (if a ≤ b then some (b - a) else none) ∧
    0 ≤ (walletDebitTxn (some b) a).getD b ∧
    0 ≤ jsNum (joinTournament uid userData entryFee now s).2.balance ∧
    0 ≤ jsNum (requestWithdrawal uid amount method account settings now s).2.balance := by
  refine ⟨?_, ?_, ?_, ?_⟩
  · simp [walletDebitTxn, jsNum, ge_iff_le]
  · rcases hd : walletDebitTxn (some b) a with _ | x
    · simpa using hb
    · simpa using walletDebitTxn_nonneg (some b) a x hd
  · rcases joinTournament_balance_cases uid userData entryFee now s with h | ⟨nb, hnb, h⟩
    · rw [h]; exact hs
    · rw [h]; simpa [jsNum] using walletDebitTxn_nonneg s.balance entryFee nb hnb
  · rcases requestWithdrawal_balance_cases uid amount method account settings now s with
      h | ⟨a2, nb, _, hnb, h⟩
    · rw [h]; exact hs
    · rw [h]; simpa [jsNum] using walletDebitTxn_nonneg s.balance a2 nb hnb

/-- C3 witness: balance 500, amount 100 commits to 400; both operations
run on the sample state keep the balance non-negative. -/
theorem C3_debit_spec_witness :
    ((0:ℚ) ≤ 500 ∧ (0:ℚ) ≤ 100 ∧ 0 ≤ jsNum sampleState.balance) ∧
    (walletDebitTxn (some 500) 100 = (if (100:ℚ) ≤ 500 then some (500 - 100) else none) ∧
     0 ≤ (walletDebitTxn (some 500) 100).getD 500 ∧
     0 ≤ jsNum (joinTournament "u1" (some sampleUser) 100 5 sampleState).2.balance ∧
     0 ≤ jsNum (requestWithdrawal "u1" (some 100) "upi" "acct"
           ⟨some 50, some 2⟩ 5 sampleState).2.balance) :=
  ⟨⟨by norm_num, by norm_num, by norm_num [sampleState, jsNum]⟩,
   C3_debit_spec 500 100 "u1" (some sampleUser) 100 5 (some 100) "upi" "acct"
     ⟨some 50, some 2⟩ sampleState (by norm_num) (by norm_num)
     (by norm_num [sampleState, jsNum])⟩

/-- Undoing a committed slot reservation: the compensating decrement
applied to the record written by a committed slot transaction restores
the record exactly, provided the stored count was a number >= 0. -/
theorem release_after_reserve (c : TournamentRec) (nt : Option TournamentRec) (j : ℚ)
    (hj : c.joinedCount = some j) (hj0 : 0 ≤ j)
    (h3 : slotTxn (some c) = some nt) :
    releaseTxn nt = some c := by
  obtain ⟨jc, ms⟩ := c
  replace hj : jc = some j := hj
  subst hj
  simp only [slotTxn] at h3
  split at h3
  · cases h3
  · injection h3 with h3
    subst h3
    have hne : j + 1 ≠ 0 := by
      intro h
      have : j = -1 := by linarith
      rw [this] at hj0
      norm_num at hj0
    simp [releaseTxn, releaseVal, jsNum, hne]

/-- C4: every join attempt that ends in a failure exit (missing
profile, blocked user, pre-flight shortfall, full tournament, or a
failed debit followed by the compensating decrement) leaves the whole
store state, in particular joinedCount and the wallet balance, exactly
as it was before the attempt, for a stored tournament whose count is a
number >= 0. -/
theorem C4_failure_rollback (uid : String) (userData : Option UserRec) (entryFee : ℚ)
    (now : ℕ) (s : AppState) (c : TournamentRec) (j : ℚ)
    (hT : s.tournament = some c) (hj : c.joinedCount = some j) (hj0 : 0 ≤ j) :
    (joinTournament uid userData entryFee now s).1 = JoinResult.joined ∨
    (joinTournament uid userData entryFee now s).2 = s := by
  rcases userData with _ | v
  · right; rfl
  · by_cases hb : v.isBlocked = true
    · rw [joinTournament_blocked uid v entryFee now s hb]; right; rfl
    · replace hb : v.isBlocked = false := by simpa using hb
      by_cases hp : jsNum v.walletBalance < entryFee
      · rw [joinTournament_preflight uid v entryFee now s hb hp]; right; rfl
      · rcases h3 : slotTxn s.tournament with _ | nt
        · rw [joinTournament_full uid v entryFee now s hb hp h3]; right; rfl
        · rcases h4 : walletDebitTxn s.balance entryFee with _ | nb
          · rw [joinTournament_debitFailed uid v entryFee now s nt hb hp h3 h4]
            right
            rw [hT] at h3
            have hrel : releaseTxn nt = some c := release_after_reserve c nt j hj hj0 h3
            rw [hrel, ← hT]
          · rw [joinTournament_joined uid v entryFee now s nt nb hb hp h3 h4]
            left; rfl

/-- C4 witness: snapshot balance 500 passes pre-flight but the stored
balance 50 cannot cover the fee 100, so the debit aborts, the
compensation runs, and the state is exactly restored. -/
theorem C4_failure_rollback_witness :
    (poorState.tournament = some sampleT ∧ sampleT.joinedCount = some 3 ∧ (0:ℚ) ≤ 3) ∧
    ((joinTournament "u1" (some sampleUser) 100 5 poorState).1 = JoinResult.joined ∨
     (joinTournament "u1" (some sampleUser) 100 5 poorState).2 = poorState) :=
  ⟨⟨rfl, rfl, by norm_num⟩,
   C4_failure_rollback "u1" (some sampleUser) 100 5 poorState sampleT 3 rfl rfl
     (by norm_num)⟩

/-- C5 counterexample: on the sample state both a join with a
successful fee debit and a withdrawal with a successful debit leave the
wallet history exactly empty, so the claim that every successful debit
appends a history entry before reporting success is false at these
inputs. -/
theorem C5_counterexample_debit_without_history :
    sampleState.history = [] ∧
    (joinTournament "u1" (some sampleUser) 100 5 sampleState).1 = JoinResult.joined ∧
    (joinTournament "u1" (some sampleUser) 100 5 sampleState).2.history = [] ∧
    (requestWithdrawal "u1" (some 100) "upi" "acct" ⟨some 50, some 2⟩ 5 sampleState).1
      = WithdrawResult.requested ∧
    (requestWithdrawal "u1" (some 100) "upi" "acct" ⟨some 50, some 2⟩ 5 sampleState).2.history
      = [] := by
  refine ⟨rfl, ?_, ?_, ?_, ?_⟩ <;>
    norm_num [joinTournament, requestWithdrawal, sampleUser, sampleState, sampleT,
      slotTxn, jsGe, jsNum, walletDebitTxn]

/-- C5 amended: neither operation ever appends a wallet history entry:
the wallet history list is left unchanged by every run of
joinTournament and of requestWithdrawal, successful debits included
(nothing in the module writes to walletHistory; it is only read for
display). -/
theorem C5_amended_no_history_append (uid : String) (userData : Option UserRec)
    (entryFee : ℚ) (now : ℕ) (amount : Option ℚ) (method account : String)
    (settings : SettingsRec) (s : AppState) :
    (joinTournament uid userData entryFee now s).2.history = s.history ∧
    (requestWithdrawal uid amount method account settings now s).2.history = s.history := by
  constructor
  · rcases userData with _ | v
    · rfl
    · by_cases hb : v.isBlocked = true
      · rw [joinTournament_blocked uid v entryFee now s hb]
      · replace hb : v.isBlocked = false := by simpa using hb
        by_cases hp : jsNum v.walletBalance < entryFee
        · rw [joinTournament_preflight uid v entryFee now s hb hp]
        · rcases h3 : slotTxn s.tournament with _ | nt
          · rw [joinTournament_full uid v entryFee now s hb hp h3]
          · rcases h4 : walletDebitTxn s.balance entryFee with _ | nb
            · rw [joinTournament_debitFailed uid v entryFee now s nt hb hp h3 h4]
            · rw [joinTournament_joined uid v entryFee now s nt nb hb hp h3 h4]
  · rcases amount with _ | a
    · rfl
    · by_cases h1 : a ≤ 0
      · rw [requestWithdrawal_nonpos uid method account a settings now s h1]
      · by_cases h2 : a < jsNum settings.minWithdraw
        · rw [requestWithdrawal_below uid method account a settings now s h1 h2]
        · rcases h3 : walletDebitTxn s.balance a with _ | nb
          · rw [requestWithdrawal_insufficient uid method account a settings now s h1 h2 h3]
          · rw [requestWithdrawal_requested uid method account a nb settings now s h1 h2 h3]

/-- C6 counterexample: in a state where the user already holds the
membership record, a second identical join attempt is not rejected: it
succeeds again, increments joinedCount from 3 to 4 and debits the fee
again (500 to 400), overwriting the membership record; so the claim
that the second attempt is rejected with joinedCount and balance
unchanged is false at this input. -/
theorem C6_counterexample_second_join_not_rejected :
    joinedState.membership = some (mkMembership "u1" sampleUser 1) ∧
    (joinTournament "u1" (some sampleUser) 100 5 joinedState).1 = JoinResult.joined ∧
    (joinTournament "u1" (some sampleUser) 100 5 joinedState).2.balance = some 400 ∧
    (joinTournament "u1" (some sampleUser) 100 5 joinedState).2.tournament
      = some { joinedCount := some 4, maxSlots := some 10 } ∧
    (joinTournament "u1" (some sampleUser) 100 5 joinedState).2.membership
      = some (mkMembership "u1" sampleUser 5) := by
  refine ⟨rfl, ?_, ?_, ?_, ?_⟩ <;>
    norm_num [joinTournament, sampleUser, joinedState, sampleT,
      slotTxn, jsGe, jsNum, walletDebitTxn]

/-- C6 amended: joinTournament never consults the membership record: a
second attempt for a pair that already holds one is processed exactly
like a first attempt, reserving a further slot, debiting the entry fee
again and overwriting the single membership record (the fixed key
tournamentJoins/tId/uid still guarantees at most one record per pair). -/
theorem C6_amended_second_join_repeats (uid : String) (u : UserRec) (entryFee : ℚ)
    (now : ℕ) (s : AppState) (m : MembershipRec) (j mx b : ℚ)
    (hMem : s.membership = some m)
    (hB : u.isBlocked = false)
    (hSnap : entryFee ≤ jsNum u.walletBalance)
    (hT : s.tournament = some { joinedCount := some j, maxSlots := some mx })
    (hjm : j < mx)
    (hBal : s.balance = some b)
    (hFee : entryFee ≤ b) :
    joinTournament uid (some u) entryFee now s
      = (JoinResult.joined,
         { s with
             tournament := some { joinedCount := some (j + 1), maxSlots := some mx },
             balance := some (b - entryFee),
             membership := some (mkMembership uid u now) }) := by
  have h3 : slotTxn s.tournament
      = some (some { joinedCount := some (j + 1), maxSlots := some mx }) := by
    rw [hT]
    simp [slotTxn, jsGe, jsNum, not_le.mpr hjm]
  have h4 : walletDebitTxn s.balance entryFee = some (b - entryFee) := by
    rw [hBal]
    simp [walletDebitTxn, jsNum, hFee]
  rw [joinTournament_joined uid u entryFee now s _ _ hB (not_lt.mpr hSnap) h3 h4]

/-- C6 amended witness: the second join on the joined sample state. -/
theorem C6_amended_second_join_repeats_witness :
    (joinedState.membership = some (mkMembership "u1" sampleUser 1) ∧
     sampleUser.isBlocked = false ∧
     (100:ℚ) ≤ jsNum sampleUser.walletBalance ∧
     joinedState.tournament = some { joinedCount := some 3, maxSlots := some 10 } ∧
     (3:ℚ) < 10 ∧
     joinedState.balance = some 500 ∧
     (100:ℚ) ≤ 500) ∧
    joinTournament "u1" (some sampleUser) 100 5 joinedState
      = (JoinResult.joined,
         { joinedState with
             tournament := some { joinedCount := some (3 + 1), maxSlots := some 10 },
             balance := some (500 - 100),
             membership := some (mkMembership "u1" sampleUser 5) }) :=
  ⟨⟨rfl, rfl, by norm_num [sampleUser, jsNum], rfl, by norm_num, rfl, by norm_num⟩,
   C6_amended_second_join_repeats "u1" sampleUser 100 5 joinedState
     (mkMembership "u1" sampleUser 1) 3 10 500 rfl rfl
     (by norm_num [sampleUser, jsNum]) rfl (by norm_num) rfl (by norm_num)⟩

/-- C7: joining a tournament id with no stored record does not fail:
the reservation transaction callback receives null and returns it, and
returning null commits (only undefined aborts), so the attempt
proceeds to debit the wallet (500 to 400) and to write a membership
record even though no tournament record exists. -/
theorem C7_missing_tournament_join_commits :
    joinTournament "u1" (some sampleUser) 100 5 noTournamentState
      = (JoinResult.joined,
         { tournament := none, balance := some 400,
           membership := some (mkMembership "u1" sampleUser 5),
           history := [], withdrawals := [] }) := by
  norm_num [joinTournament, sampleUser, noTournamentState, slotTxn, jsGe, jsNum,
    walletDebitTxn]

/-- C8 counterexample: with pre-reservation count 1 the reservation
commits count 2; one release yields 1, a second release yields 0,
which is strictly below the pre-reservation value 1 (already its own
floor at 0); moreover from starting counter value -1 a single release
yields -2, below 0.  So the claim is false at these inputs. -/
theorem C8_counterexample_double_release :
    slotTxn (some { joinedCount := some 1, maxSlots := some 10 })
      = some (some { joinedCount := some 2, maxSlots := some 10 }) ∧
    releaseVal (some 2) = 1 ∧
    releaseVal (some 1) = 0 ∧
    (0:ℚ) < 1 ∧
    releaseVal (some (-1)) = -2 ∧
    releaseVal (some (-1)) < 0 := by
  refine ⟨?_, ?_, ?_, ?_, ?_, ?_⟩ <;> norm_num [slotTxn, jsGe, jsNum, releaseVal]

/-- C8 amended: the release maps a missing or zero counter to 0 and any
other number c to c - 1.  After a committed reservation from a
nonnegative integer count p, one release restores exactly p; a second
release yields p - 1 when p >= 1 (so it does drive the counter below
the pre-reservation value) and 0 when p = 0; from a nonnegative integer
counter the release result is never negative (the floor at 0 only
protects the values 0 and absent, not negative or fractional ones). -/
theorem C8_amended_release_spec (p : ℕ) (mx : ℚ) (hpm : (p:ℚ) < mx) :
    slotTxn (some { joinedCount := some (p:ℚ), maxSlots := some mx })
      = some (some { joinedCount := some ((p:ℚ) + 1), maxSlots := some mx }) ∧
    releaseVal (some ((p:ℚ) + 1)) = (p:ℚ) ∧
    releaseVal (some (p:ℚ)) = (if p = 0 then 0 else (p:ℚ) - 1) ∧
    0 ≤ releaseVal (some (p:ℚ)) := by
  have hp1 : ((p:ℚ) + 1) ≠ 0 := by positivity
  refine ⟨?_, ?_, ?_, ?_⟩
  · simp [slotTxn, jsGe, jsNum, not_le.mpr hpm]
  · simp [releaseVal, hp1]
  · rcases Nat.eq_zero_or_pos p with hp | hp
    · subst hp; norm_num [releaseVal]
    · have : (p:ℚ) ≠ 0 := by exact_mod_cast hp.ne'
      simp [releaseVal, this, Nat.pos_iff_ne_zero.mp hp]
  · rcases Nat.eq_zero_or_pos p with hp | hp
    · subst hp; norm_num [releaseVal]
    · have h1 : (1:ℚ) ≤ (p:ℚ) := by exact_mod_cast hp
      have : (p:ℚ) ≠ 0 := by linarith
      simp [releaseVal, this]
      linarith

/-- C8 amended witness: pre-reservation count 1 against maxSlots 10. -/
theorem C8_amended_release_spec_witness :
    ((1:ℚ) < 10) ∧
    (slotTxn (some { joinedCount := some ((1:ℕ):ℚ), maxSlots := some 10 })
       = some (some { joinedCount := some (((1:ℕ):ℚ) + 1), maxSlots := some 10 }) ∧
     releaseVal (some (((1:ℕ):ℚ) + 1)) = ((1:ℕ):ℚ) ∧
     releaseVal (some ((1:ℕ):ℚ)) = (if (1:ℕ) = 0 then 0 else ((1:ℕ):ℚ) - 1) ∧
     0 ≤ releaseVal (some ((1:ℕ):ℚ))) :=
  ⟨by norm_num, by
    have h := C8_amended_release_spec 1 10 (by norm_num)
    exact_mod_cast h⟩

/-- C9: for a request with positive amount at or above the minimum and
a covering balance, exactly the amount (not amount plus fee) is
debited and a withdrawal record is pushed carrying status pending and
the fee, which is the exact integer ceiling of
amount * feePercent / 100; in particular amount 1000 at feePercent 2
gives fee 20. -/
theorem C9_withdraw_fee_spec (uid method account : String) (a b minW fp : ℚ)
    (now : ℕ) (s : AppState)
    (hBal : s.balance = some b) (ha : 0 < a) (hmin : minW ≤ a) (hab : a ≤ b) :
    requestWithdrawal uid (some a) method account ⟨some minW, some fp⟩ now s
      = (WithdrawResult.requested,
         { s with balance := some (b - a),
                  withdrawals := s.withdrawals ++
                    [mkWithdrawal uid method account a (withdrawFee a fp) now] }) ∧
    (mkWithdrawal uid method account a (withdrawFee a fp) now).fee
      = ((⌈a * fp / 100⌉ : ℤ) : ℚ) ∧
    (mkWithdrawal uid method account a (withdrawFee a fp) now).status = "pending" ∧
    (mkWithdrawal uid method account a (withdrawFee a fp) now).amount = a ∧
    withdrawFee 1000 2 = 20 := by
  have h1 : ¬ a ≤ 0 := not_le.mpr ha
  have h2 : ¬ a < jsNum (SettingsRec.mk (some minW) (some fp)).minWithdraw := by
    simpa [jsNum] using not_lt.mpr hmin
  have h3 : walletDebitTxn s.balance a = some (b - a) := by
    rw [hBal]
    simp [walletDebitTxn, jsNum, hab]
  refine ⟨?_, rfl, rfl, rfl, by norm_num [withdrawFee]⟩
  rw [requestWithdrawal_requested uid method account a (b - a)
    ⟨some minW, some fp⟩ now s h1 h2 h3]
  simp [jsNum]

/-- C9 witness: the spec scenario, amount 1000, minWithdraw 500,
feePercent 2, balance 2000. -/
theorem C9_withdraw_fee_spec_witness :
    (wealthyState.balance = some 2000 ∧ (0:ℚ) < 1000 ∧ (500:ℚ) ≤ 1000 ∧
      (1000:ℚ) ≤ 2000) ∧
    (requestWithdrawal "u1" (some 1000) "upi" "acct" ⟨some 500, some 2⟩ 5 wealthyState
       = (WithdrawResult.requested,
          { wealthyState with
              balance := some (2000 - 1000),
              withdrawals := wealthyState.withdrawals ++
                [mkWithdrawal "u1" "upi" "acct" 1000 (withdrawFee 1000 2) 5] }) ∧
     (mkWithdrawal "u1" "upi" "acct" 1000 (withdrawFee 1000 2) 5).fee
       = ((⌈(1000:ℚ) * 2 / 100⌉ : ℤ) : ℚ) ∧
     (mkWithdrawal "u1" "upi" "acct" 1000 (withdrawFee 1000 2) 5).status = "pending" ∧
     (mkWithdrawal "u1" "upi" "acct" 1000 (withdrawFee 1000 2) 5).amount = 1000 ∧
     withdrawFee 1000 2 = 20) :=
  ⟨⟨rfl, by norm_num, by norm_num, by norm_num⟩,
   C9_withdraw_fee_spec "u1" "upi" "acct" 1000 2000 500 2 5 wealthyState rfl
     (by norm_num) (by norm_num) (by norm_num)⟩

/-- C10: a missing (NaN) or non-positive parsed amount is rejected with
the state untouched, before the settings are consulted (the rejection
holds for every settings value), so no debit and no withdrawal record
can result; but a positive fractional amount passes the guard: 1/2 is
accepted and debited, leaving balance 999/2 on the sample state. -/
theorem C10_amount_guard (uid method account : String) (a : ℚ)
    (settings : SettingsRec) (now : ℕ) (s : AppState) (ha : a ≤ 0) :
    requestWithdrawal uid none method account settings now s
      = (WithdrawResult.invalidAmount, s) ∧
    requestWithdrawal uid (some a) method account settings now s
      = (WithdrawResult.invalidAmount, s) ∧
    (requestWithdrawal "u1" (some (1/2)) "upi" "" ⟨none, none⟩ 5 sampleState).1
      = WithdrawResult.requested ∧
    (requestWithdrawal "u1" (some (1/2)) "upi" "" ⟨none, none⟩ 5 sampleState).2.balance
      = some (999/2) := by
  refine ⟨rfl, requestWithdrawal_nonpos uid method account a settings now s ha, ?_, ?_⟩ <;>
    norm_num [requestWithdrawal, sampleState, sampleT, walletDebitTxn, jsNum]

/-- C10 witness: rejection of amount -5 on the sample state. -/
theorem C10_amount_guard_witness :
    ((-5:ℚ) ≤ 0) ∧
    (requestWithdrawal "u1" none "upi" "acct" ⟨some 500, some 2⟩ 5 sampleState
       = (WithdrawResult.invalidAmount, sampleState) ∧
     requestWithdrawal "u1" (some (-5)) "upi" "acct" ⟨some 500, some 2⟩ 5 sampleState
       = (WithdrawResult.invalidAmount, sampleState) ∧
     (requestWithdrawal "u1" (some (1/2)) "upi" "" ⟨none, none⟩ 5 sampleState).1
       = WithdrawResult.requested ∧
     (requestWithdrawal "u1" (some (1/2)) "upi" "" ⟨none, none⟩ 5 sampleState).2.balance
       = some (999/2)) :=
  ⟨by norm_num,
   C10_amount_guard "u1" "upi" "acct" (-5) ⟨some 500, some 2⟩ 5 sampleState (by norm_num)⟩
